import Mathlib

/-!
Shallow embedding of Open3D's dense linear-system solver
(`cpp/open3d/core/algebra/Solver.cpp`) and rigid-transform builders
(`cpp/open3d/t/pipelines/SolveTransformation.cpp`).

Tensors are modelled as values carrying shape, dtype, device, a buffer
identifier (so that aliasing and freshness of allocations can be stated)
and a flat row-major data list over an abstract commutative ring `K`.
`Float32` arithmetic is modelled symbolically: the trigonometric functions
of the pose builder are abstract functions `s`, `c : K → K`, so theorems
about the pose builder speak about the exact closed-form expressions the
code computes, not about floating-point rounding.

Fatal `LogError` calls are modelled as `Except`/`Option` error results;
the numeric backends (LAPACK-style `gesv` kernels) are opaque parameters,
exactly as the source treats them.
-/

set_option autoImplicit false

namespace Open3D

/-- Device categories: `Device::DeviceType` (CPU and CUDA in the source). -/
inductive DeviceType where
  | CPU
  | CUDA
  deriving DecidableEq

/-- A device is a (category, index) pair, e.g. `CPU:0`. -/
structure Device where
  type : DeviceType
  index : Nat
  deriving DecidableEq

/-- The host device `CPU:0` (`Device("CPU:0")` in the source). -/
def hostDevice : Device := ⟨DeviceType.CPU, 0⟩

/-- Element dtypes appearing in the sources (plus `Int64` as a further
unsupported dtype for the solver path). -/
inductive Dtype where
  | Float32
  | Float64
  | Int32
  | Int64
  deriving DecidableEq

/-- A tensor: shape metadata, dtype, device, an identifier of the owned
buffer (for aliasing/freshness statements), and the buffer's contents as
a flat row-major list over the scalar type `K`. -/
structure Tensor (K : Type) where
  shape : List Nat
  dtype : Dtype
  device : Device
  bufferId : Nat
  data : List K
  deriving DecidableEq

variable {K : Type} [CommRing K]

/-- Flat row-major transpose of an `r × c` matrix stored as a flat list:
entry `(j, i)` of the result is entry `(i, j)` of the input. -/
def transposeData (r c : Nat) (d : List K) : List K :=
  (List.range c).flatMap fun j => (List.range r).map fun i => d.getD (i * c + j) 0

/-- `Tensor::T()`: for a rank-2 tensor, swap the two dimensions (a view on
the same buffer, hence the same `bufferId`); for rank ≤ 1 it is the
identity, as in Open3D. -/
def Tensor.T (t : Tensor K) : Tensor K :=
  match t.shape with
  | [a, b] => { t with shape := [b, a], data := transposeData a b t.data }
  | _ => t

/-- `Tensor::Copy(device)`: an independent copy of the tensor materialized
on `dev`, owning a freshly allocated buffer identified by `newId`. -/
def Tensor.copy (t : Tensor K) (dev : Device) (newId : Nat) : Tensor K :=
  { t with device := dev, bufferId := newId }

/-- `Tensor::Zeros(shape, dtype, device)` for a freshly allocated buffer
`newId`; the data list is `shape.prod` zeros. -/
def Tensor.zeros (shape : List Nat) (dtype : Dtype) (dev : Device) (newId : Nat) :
    Tensor K :=
  ⟨shape, dtype, dev, newId, List.replicate shape.prod 0⟩

/-! ## Solve (`core/algebra/Solver.cpp`) -/

/-- The distinct fatal-error kinds of the `Solve` path, named as in the
spec's error taxonomy. The source's three shape-related `LogError` sites
(A not 2-D, A not square, B not 1-D/2-D) all fall under `shapeError`. -/
inductive SolveError where
  | deviceMismatch
  | dtypeMismatch
  | unsupportedDtype
  | shapeError
  | dimensionMismatch
  | unimplementedBackend
  deriving DecidableEq

/-- The validation chain of `Solve`, in exactly the source's order:
device equality, dtype equality, dtype support, A rank 2, A square,
B rank 1 or 2, A columns = B rows. Returns the first violated check's
error, `none` when every check passes. -/
def solveValidate (A B : Tensor K) : Option SolveError :=
  if A.device ≠ B.device then some SolveError.deviceMismatch
  else if A.dtype ≠ B.dtype then some SolveError.dtypeMismatch
  else if A.dtype ≠ Dtype.Float32 ∧ A.dtype ≠ Dtype.Float64 then
    some SolveError.unsupportedDtype
  else if A.shape.length ≠ 2 then some SolveError.shapeError
  else if A.shape.getD 0 0 ≠ A.shape.getD 1 0 then some SolveError.shapeError
  else if B.shape.length ≠ 1 ∧ B.shape.length ≠ 2 then some SolveError.shapeError
  else if A.shape.getD 1 0 ≠ B.shape.getD 0 0 then some SolveError.dimensionMismatch
  else none

/-- Signature of a numeric backend routine
`(dtype, A-buffer, B-buffer, ipiv-buffer, n, m)`; it is modelled as
returning the overwritten contents of the three buffers it mutates. -/
def GesvBackend (K : Type) : Type :=
  Dtype → List K → List K → List K → Nat → Nat → List K × List K × List K

/-- The backend registry `map_device_type_to_gesv`: an entry for `CPU` is
always present; an entry for `CUDA` is present exactly when the CUDA
module was compiled in (`BUILD_CUDA_MODULE`, here the flag `buildCuda`). -/
def map_device_type_to_gesv (buildCuda : Bool) (cpuBackend cudaBackend : GesvBackend K) :
    DeviceType → Option (GesvBackend K)
  | DeviceType.CPU => some cpuBackend
  | DeviceType.CUDA => if buildCuda then some cudaBackend else none

/-- A successful `Solve` returns the solution tensor together with a record
of the exact tensors handed to the backend routine (the transposed copies
of A and B and the pivot buffer), so that non-aliasing can be stated. -/
structure SolveOutcome (K : Type) where
  result : Tensor K
  aCopy : Tensor K
  bCopy : Tensor K
  ipiv : Tensor K
  deriving DecidableEq

/-- `Solve(A, B)`, following `Solver.cpp` step by step: validate; take
transposed copies of A and B materialized on A's device (fresh buffers
`fresh` and `fresh + 1`); allocate the `n`-length `Int32` pivot buffer on
host memory (fresh buffer `fresh + 2`); resolve the backend from the
registry (failing with `unimplementedBackend` if absent); invoke it on
the copies; return the mutated B-copy transposed back to row-major. -/
def Solve (buildCuda : Bool) (cpuBackend cudaBackend : GesvBackend K)
    (A B : Tensor K) (fresh : Nat) : Except SolveError (SolveOutcome K) :=
  match solveValidate A B with
  | some e => Except.error e
  | none =>
    let n : Nat := A.shape.getD 0 0
    let m : Nat := if B.shape.length = 2 then B.shape.getD 1 0 else 1
    let A_copy : Tensor K := (Tensor.T A).copy A.device fresh
    let B_copy : Tensor K := (Tensor.T B).copy A.device (fresh + 1)
    let ipiv : Tensor K := Tensor.zeros [n] Dtype.Int32 hostDevice (fresh + 2)
    match map_device_type_to_gesv buildCuda cpuBackend cudaBackend A.device.type with
    | none => Except.error SolveError.unimplementedBackend
    | some gesv =>
      let out := gesv A.dtype A_copy.data B_copy.data ipiv.data n m
      Except.ok ⟨Tensor.T { B_copy with data := out.2.1 }, A_copy, B_copy, ipiv⟩

/-- The outcome `Solve` produces when all checks pass and the registry
resolves to the backend `g`: the let-bound pipeline of `Solve`'s success
branch, named so that theorems can speak about its parts. -/
def solveOutcome (g : GesvBackend K) (A B : Tensor K) (fresh : Nat) :
    SolveOutcome K :=
  let n : Nat := A.shape.getD 0 0
  let m : Nat := if B.shape.length = 2 then B.shape.getD 1 0 else 1
  let A_copy : Tensor K := (Tensor.T A).copy A.device fresh
  let B_copy : Tensor K := (Tensor.T B).copy A.device (fresh + 1)
  let ipiv : Tensor K := Tensor.zeros [n] Dtype.Int32 hostDevice (fresh + 2)
  let out := g A.dtype A_copy.data B_copy.data ipiv.data n m
  ⟨Tensor.T { B_copy with data := out.2.1 }, A_copy, B_copy, ipiv⟩

/-! ## Transform builders (`t/pipelines/SolveTransformation.cpp`) -/

/-- The fatal-error kinds of the transform builders' assertions
(`AssertShape`, `AssertDtype`, `AssertDevice`). -/
inductive TransformError where
  | shapeMismatch
  | dtypeMismatch
  | deviceMismatch
  deriving DecidableEq

/-- `ComputeTransformationFromRt(R, t)`: allocate a zero 4×4 Float32 tensor
on R's device; assert R is 3×3 Float32 and t is a 3-vector, Float32, on
R's device; copy R into the top-left 3×3 block, t (as 3×1) into the
top-right column, and set entry (3,3) to 1. The slice assignments are
modelled by `List.set` writes at the row-major positions they cover. -/
def ComputeTransformationFromRt (R t : Tensor K) (fresh : Nat) :
    Except TransformError (Tensor K) :=
  let device := R.device
  let transformation : Tensor K := Tensor.zeros [4, 4] Dtype.Float32 device fresh
  if R.shape ≠ [3, 3] then Except.error TransformError.shapeMismatch
  else if R.dtype ≠ Dtype.Float32 then Except.error TransformError.dtypeMismatch
  else if t.shape ≠ [3] then Except.error TransformError.shapeMismatch
  else if t.device ≠ device then Except.error TransformError.deviceMismatch
  else if t.dtype ≠ Dtype.Float32 then Except.error TransformError.dtypeMismatch
  else
    let r : Nat → K := fun i => R.data.getD i 0
    let d0 := transformation.data
    let d1 := ((((((((d0.set 0 (r 0)).set 1 (r 1)).set 2 (r 2)).set 4
      (r 3)).set 5 (r 4)).set 6 (r 5)).set 8 (r 6)).set 9 (r 7)).set 10 (r 8)
    let d2 := ((d1.set 3 (t.data.getD 0 0)).set 7 (t.data.getD 1 0)).set 11
      (t.data.getD 2 0)
    let d3 := d2.set 15 1
    Except.ok { transformation with data := d3 }

/-- `ComputeTransformationFromPose(X)`, with the trigonometric functions
abstracted as `s` (sine) and `c` (cosine): assert X has shape `[6]` and
dtype Float32; allocate a zero 4×4 Float32 tensor on X's device; fill the
nine rotation entries with the source's closed-form expressions in
`rx = X[0]`, `ry = X[1]`, `rz = X[2]`; copy `X[3..5]` into the top-right
column; set entry (3,3) to 1. -/
def ComputeTransformationFromPose (s c : K → K) (X : Tensor K) (fresh : Nat) :
    Except TransformError (Tensor K) :=
  if X.shape ≠ [6] then Except.error TransformError.shapeMismatch
  else if X.dtype ≠ Dtype.Float32 then Except.error TransformError.dtypeMismatch
  else
    let transformation : Tensor K := Tensor.zeros [4, 4] Dtype.Float32 X.device fresh
    let x : Nat → K := fun i => X.data.getD i 0
    let d0 := transformation.data
    let d1 := ((((((((d0.set 0 (c (x 2) * c (x 1))).set 1
      (-1 * s (x 2) * c (x 0) + c (x 2) * s (x 1) * s (x 0))).set 2
      (s (x 2) * s (x 0) + c (x 2) * s (x 1) * c (x 0))).set 4
      (s (x 2) * c (x 1))).set 5
      (c (x 2) * c (x 0) + s (x 2) * s (x 1) * s (x 0))).set 6
      (-1 * c (x 2) * s (x 0) + s (x 2) * s (x 1) * c (x 0))).set 8
      (-1 * s (x 1))).set 9
      (c (x 1) * s (x 0))).set 10
      (c (x 1) * c (x 0))
    let d2 := ((d1.set 3 (x 3)).set 7 (x 4)).set 11 (x 5)
    let d3 := d2.set 15 1
    Except.ok { transformation with data := d3 }

/-- The claim's closed-form 4×4 transform, written exactly as the spec's
nine rotation formulas (Z-then-Y-then-X composition), the translation
column, and the `[0,0,0,1]` bottom row, flattened row-major. This is the
spec-side description, to be compared with `ComputeTransformationFromPose`. -/
def specPoseTransform (s c : K → K) (rx ry rz tx ty tz : K) : List K :=
  [c rz * c ry, -(s rz) * c rx + c rz * s ry * s rx,
     s rz * s rx + c rz * s ry * c rx, tx,
   s rz * c ry, c rz * c rx + s rz * s ry * s rx,
     -(c rz) * s rx + s rz * s ry * c rx, ty,
   -(s ry), c ry * s rx, c ry * c rx, tz,
   0, 0, 0, 1]

/-! ## Concrete instances used by counterexamples and witnesses -/

/-- A trivial backend instance (returns its buffers unchanged), used to
instantiate `Solve` at concrete inputs. -/
def idGesv : GesvBackend ℤ := fun _ a b ip _ _ => (a, b, ip)

/-- A concrete 2×2 Float32 matrix on `CPU:0`. -/
def cexA : Tensor ℤ := ⟨[2, 2], Dtype.Float32, hostDevice, 0, [2, 0, 0, 3]⟩

/-- A concrete 2-vector of dtype Float64 on `CUDA:1`, so that it disagrees
with `cexA` in both device and dtype. -/
def cexB : Tensor ℤ := ⟨[2], Dtype.Float64, ⟨DeviceType.CUDA, 1⟩, 1, [4, 9]⟩

/-- A concrete valid right-hand side for `cexA`: a Float32 2-vector on
`CPU:0`. -/
def okB : Tensor ℤ := ⟨[2], Dtype.Float32, hostDevice, 1, [4, 9]⟩

/-- A concrete 2×2 Float32 matrix on `CUDA:0`. -/
def cudaA : Tensor ℤ := ⟨[2, 2], Dtype.Float32, ⟨DeviceType.CUDA, 0⟩, 0, [1, 0, 0, 1]⟩

/-- A concrete Float32 2-vector on `CUDA:0`. -/
def cudaB : Tensor ℤ := ⟨[2], Dtype.Float32, ⟨DeviceType.CUDA, 0⟩, 1, [5, 6]⟩

/-! ## Helper lemmas -/

@[simp] theorem Tensor.T_dtype (t : Tensor K) : (Tensor.T t).dtype = t.dtype := by
  unfold Tensor.T
  split <;> rfl

@[simp] theorem Tensor.T_device (t : Tensor K) : (Tensor.T t).device = t.device := by
  unfold Tensor.T
  split <;> rfl

@[simp] theorem Tensor.T_bufferId (t : Tensor K) : (Tensor.T t).bufferId = t.bufferId := by
  unfold Tensor.T
  split <;> rfl

theorem Tensor.T_of_shape_one (t : Tensor K) (a : Nat) (h : t.shape = [a]) :
    Tensor.T t = t := by
  rcases t with ⟨s, dt, dev, id, d⟩
  simp only [Tensor.mk.injEq] at h ⊢
  subst h
  rfl

theorem Tensor.T_shape_of_shape_two (t : Tensor K) (a b : Nat)
    (h : t.shape = [a, b]) : (Tensor.T t).shape = [b, a] := by
  rcases t with ⟨s, dt, dev, id, d⟩
  simp only at h
  subst h
  rfl

/-- All seven validation checks pass exactly when devices and dtypes agree,
the dtype is Float32 or Float64, A is a square 2-D matrix, B is 1-D or 2-D,
and A's column count equals B's row count. -/
theorem solveValidate_eq_none (A B : Tensor K) :
    solveValidate A B = none ↔
      A.device = B.device ∧ A.dtype = B.dtype ∧
      (A.dtype = Dtype.Float32 ∨ A.dtype = Dtype.Float64) ∧
      A.shape.length = 2 ∧ A.shape.getD 0 0 = A.shape.getD 1 0 ∧
      (B.shape.length = 1 ∨ B.shape.length = 2) ∧
      A.shape.getD 1 0 = B.shape.getD 0 0 := by
  unfold solveValidate
  split_ifs <;> simp_all <;> tauto

theorem Solve_eq_ok (bc : Bool) (cpuB cudaB : GesvBackend K) (A B : Tensor K)
    (fresh : Nat) (g : GesvBackend K) (hv : solveValidate A B = none)
    (hg : map_device_type_to_gesv bc cpuB cudaB A.device.type = some g) :
    Solve bc cpuB cudaB A B fresh = Except.ok (solveOutcome g A B fresh) := by
  simp [Solve, solveOutcome, hv, hg]

end Open3D

/-! ## Claim theorems -/

/-- C1: on a shape-`[6]` Float32 pose `[rx, ry, rz, tx, ty, tz]`,
`ComputeTransformationFromPose` returns the 4×4 Float32 transform whose
rotation block is exactly the spec's nine Z-then-Y-then-X closed-form
entries, whose translation column is `[tx, ty, tz]`, with `T[3][3] = 1`
and the rest of the bottom row `0`. -/
theorem Open3D.C1_fromPose_matches_spec {K : Type} [CommRing K] (s c : K → K)
    (dev : Device) (idX fresh : Nat) (rx ry rz tx ty tz : K) :
    ComputeTransformationFromPose s c
      ⟨[6], Dtype.Float32, dev, idX, [rx, ry, rz, tx, ty, tz]⟩ fresh
    = Except.ok ⟨[4, 4], Dtype.Float32, dev, fresh,
        specPoseTransform s c rx ry rz tx ty tz⟩ := by
  simp [ComputeTransformationFromPose, Tensor.zeros, specPoseTransform]

/-- C2, counterexample: `cexA` and `cexB` differ in dtype, yet `Solve` does
not raise `dtypeMismatch` on them (it raises `deviceMismatch`, because the
device check runs first), refuting "DtypeMismatch iff their dtypes
differ" as stated. -/
theorem Open3D.C2_counterexample :
    cexA.dtype ≠ cexB.dtype ∧
    Solve false idGesv idGesv cexA cexB 10 ≠
      Except.error SolveError.dtypeMismatch := by
  refine ⟨by decide, ?_⟩
  rw [show Solve false idGesv idGesv cexA cexB 10
      = Except.error SolveError.deviceMismatch from rfl]
  intro h
  exact absurd (Except.error.inj h) (by decide)

set_option maxHeartbeats 1000000 in
/-- C2, amended: each named validation failure is raised exactly when its
condition holds and every earlier check in the source's fixed order
passes; and whenever validation fails, `Solve` returns that error without
invoking any copy or backend (the result is `Except.error e` for every
choice of backends and of the allocation counter, carrying no tensor). -/
theorem Open3D.C2_validation_conditions {K : Type} [CommRing K] (A B : Tensor K) :
    (solveValidate A B = some SolveError.deviceMismatch ↔ A.device ≠ B.device)
  ∧ (solveValidate A B = some SolveError.dtypeMismatch ↔
      A.device = B.device ∧ A.dtype ≠ B.dtype)
  ∧ (solveValidate A B = some SolveError.unsupportedDtype ↔
      A.device = B.device ∧ A.dtype = B.dtype ∧
      A.dtype ≠ Dtype.Float32 ∧ A.dtype ≠ Dtype.Float64)
  ∧ (solveValidate A B = some SolveError.shapeError ↔
      A.device = B.device ∧ A.dtype = B.dtype ∧
      (A.dtype = Dtype.Float32 ∨ A.dtype = Dtype.Float64) ∧
      (A.shape.length ≠ 2 ∨ A.shape.getD 0 0 ≠ A.shape.getD 1 0 ∨
        (B.shape.length ≠ 1 ∧ B.shape.length ≠ 2)))
  ∧ (solveValidate A B = some SolveError.dimensionMismatch ↔
      A.device = B.device ∧ A.dtype = B.dtype ∧
      (A.dtype = Dtype.Float32 ∨ A.dtype = Dtype.Float64) ∧
      A.shape.length = 2 ∧ A.shape.getD 0 0 = A.shape.getD 1 0 ∧
      (B.shape.length = 1 ∨ B.shape.length = 2) ∧
      A.shape.getD 1 0 ≠ B.shape.getD 0 0)
  ∧ (∀ (bc : Bool) (cpuB cudaB : GesvBackend K) (fresh : Nat) (e : SolveError),
      solveValidate A B = some e →
      Solve bc cpuB cudaB A B fresh = Except.error e) := by
  constructor
  · unfold solveValidate
    split_ifs <;> simp_all
  constructor
  · unfold solveValidate
    split_ifs <;> simp_all
  constructor
  · unfold solveValidate
    split_ifs <;> simp_all <;> tauto
  constructor
  · unfold solveValidate
    split_ifs <;> simp_all <;> tauto
  constructor
  · unfold solveValidate
    split_ifs <;> simp_all <;> tauto
  · intro bc cpuB cudaB fresh e he
    simp [Solve, he]

/-- Witness for C2 (amended) at the concrete pair `cexA`, `cexB`. -/
theorem Open3D.C2_validation_conditions_witness :
    solveValidate cexA cexB = some SolveError.deviceMismatch :=
  (Open3D.C2_validation_conditions cexA cexB).1.mpr (by decide)

/-- C3: `ComputeTransformationFromRt` on a 3×3 Float32 rotation and a
3-vector Float32 translation on the same device returns the 4×4 Float32
transform on that device whose top-left block is R, top-right column is t,
and bottom row is `[0, 0, 0, 1]`. -/
theorem Open3D.C3_fromRt_blocks {K : Type} [CommRing K] (dev : Device)
    (idR idT fresh : Nat)
    (r00 r01 r02 r10 r11 r12 r20 r21 r22 t0 t1 t2 : K) :
    ComputeTransformationFromRt
      ⟨[3, 3], Dtype.Float32, dev, idR,
        [r00, r01, r02, r10, r11, r12, r20, r21, r22]⟩
      ⟨[3], Dtype.Float32, dev, idT, [t0, t1, t2]⟩ fresh
    = Except.ok ⟨[4, 4], Dtype.Float32, dev, fresh,
        [r00, r01, r02, t0, r10, r11, r12, t1, r20, r21, r22, t2,
         0, 0, 0, 1]⟩ := by
  simp [ComputeTransformationFromRt, Tensor.zeros]

/-- C4: for valid inputs (all validation checks pass and a backend exists
for A's device category), with the allocation counter past A's and B's
buffers, `Solve` succeeds; the result has B's logical shape, the common
dtype of A and B, the common device of A and B, and a freshly allocated
buffer aliasing neither A's nor B's. -/
theorem Open3D.C4_result_shape_dtype_device_fresh {K : Type} [CommRing K]
    (bc : Bool) (cpuB cudaB g : GesvBackend K) (A B : Tensor K) (fresh : Nat)
    (hv : solveValidate A B = none)
    (hg : map_device_type_to_gesv bc cpuB cudaB A.device.type = some g)
    (hfA : A.bufferId < fresh) (hfB : B.bufferId < fresh) :
    ∃ out, Solve bc cpuB cudaB A B fresh = Except.ok out
      ∧ out.result.shape = B.shape
      ∧ out.result.dtype = A.dtype ∧ out.result.dtype = B.dtype
      ∧ out.result.device = A.device ∧ out.result.device = B.device
      ∧ out.result.bufferId ≠ A.bufferId ∧ out.result.bufferId ≠ B.bufferId := by
  obtain ⟨hdev, hdt, -, -, -, hBr, -⟩ := (solveValidate_eq_none A B).1 hv
  refine ⟨solveOutcome g A B fresh, Solve_eq_ok bc cpuB cudaB A B fresh g hv hg,
    ?_, ?_, ?_, ?_, ?_, ?_, ?_⟩
  · rcases hBr with h1 | h2
    · obtain ⟨b0, hB⟩ := List.length_eq_one.1 h1
      simp [solveOutcome, Tensor.copy, Tensor.T_of_shape_one B b0 hB, hB]
      rw [Tensor.T_of_shape_one _ b0 rfl]
    · obtain ⟨b0, b1, hB⟩ := List.length_eq_two.1 h2
      simp [solveOutcome, Tensor.copy, Tensor.T_shape_of_shape_two B b0 b1 hB,
        Tensor.T_shape_of_shape_two (K := K)
          ⟨[b1, b0], B.dtype, A.device, fresh + 1, _⟩ b1 b0 rfl, hB]
  · rw [hdt]
    simp [solveOutcome, Tensor.copy]
  · simp [solveOutcome, Tensor.copy]
  · simp [solveOutcome, Tensor.copy]
  · rw [← hdev]
    simp [solveOutcome, Tensor.copy]
  · simp [solveOutcome, Tensor.copy]
    omega
  · simp [solveOutcome, Tensor.copy]
    omega

/-- Witness for C4 at the concrete pair `cexA`, `okB` on `CPU:0`. -/
theorem Open3D.C4_result_witness :
    ∃ out, Solve false idGesv idGesv cexA okB 5 = Except.ok out
      ∧ out.result.shape = okB.shape
      ∧ out.result.dtype = cexA.dtype ∧ out.result.dtype = okB.dtype
      ∧ out.result.device = cexA.device ∧ out.result.device = okB.device
      ∧ out.result.bufferId ≠ cexA.bufferId
      ∧ out.result.bufferId ≠ okB.bufferId :=
  Open3D.C4_result_shape_dtype_device_fresh false idGesv idGesv idGesv cexA okB 5
    (by decide) rfl (by decide) (by decide)

/-- C5: `Solve` never mutates its arguments. In this value-level embedding
the backend routine is the only mutating step, and it is invoked exactly
on the recorded `aCopy`, `bCopy`, `ipiv` tensors; for valid inputs these
are independent transposed copies of A and B materialized on A's device,
whose buffers are fresh — distinct from A's and B's buffers and from each
other — so the caller's A and B retain their original elements, shapes,
dtypes and devices. -/
theorem Open3D.C5_backend_sees_only_fresh_copies {K : Type} [CommRing K]
    (bc : Bool) (cpuB cudaB g : GesvBackend K) (A B : Tensor K) (fresh : Nat)
    (hv : solveValidate A B = none)
    (hg : map_device_type_to_gesv bc cpuB cudaB A.device.type = some g)
    (hfA : A.bufferId < fresh) (hfB : B.bufferId < fresh) :
    ∃ out, Solve bc cpuB cudaB A B fresh = Except.ok out
      ∧ out.aCopy.bufferId ≠ A.bufferId ∧ out.aCopy.bufferId ≠ B.bufferId
      ∧ out.bCopy.bufferId ≠ A.bufferId ∧ out.bCopy.bufferId ≠ B.bufferId
      ∧ out.aCopy.bufferId ≠ out.bCopy.bufferId
      ∧ out.aCopy.data = (Tensor.T A).data ∧ out.aCopy.device = A.device
      ∧ out.aCopy.dtype = A.dtype
      ∧ out.bCopy.data = (Tensor.T B).data ∧ out.bCopy.device = A.device
      ∧ out.bCopy.dtype = B.dtype := by
  refine ⟨solveOutcome g A B fresh, Solve_eq_ok bc cpuB cudaB A B fresh g hv hg,
    ?_, ?_, ?_, ?_, ?_, ?_, ?_, ?_, ?_, ?_, ?_⟩ <;>
    simp [solveOutcome, Tensor.copy] <;> omega

/-- Witness for C5 at the concrete pair `cexA`, `okB`. -/
theorem Open3D.C5_backend_witness :
    ∃ out, Solve false idGesv idGesv cexA okB 7 = Except.ok out
      ∧ out.aCopy.bufferId ≠ cexA.bufferId ∧ out.aCopy.bufferId ≠ okB.bufferId
      ∧ out.bCopy.bufferId ≠ cexA.bufferId ∧ out.bCopy.bufferId ≠ okB.bufferId
      ∧ out.aCopy.bufferId ≠ out.bCopy.bufferId
      ∧ out.aCopy.data = (Tensor.T cexA).data ∧ out.aCopy.device = cexA.device
      ∧ out.aCopy.dtype = cexA.dtype
      ∧ out.bCopy.data = (Tensor.T okB).data ∧ out.bCopy.device = cexA.device
      ∧ out.bCopy.dtype = okB.dtype :=
  Open3D.C5_backend_sees_only_fresh_copies false idGesv idGesv idGesv cexA okB 7
    (by decide) rfl (by decide) (by decide)

/-- C6: with zero rotation angles (and any sine/cosine satisfying
`s 0 = 0`, `c 0 = 1`, as the IEEE functions do at zero),
`ComputeTransformationFromPose [0,0,0,tx,ty,tz]` returns the transform
with identity rotation block and translation column `[tx, ty, tz]`. -/
theorem Open3D.C6_fromPose_zero_angles {K : Type} [CommRing K] (s c : K → K)
    (hs : s 0 = 0) (hc : c 0 = 1) (dev : Device) (idX fresh : Nat)
    (tx ty tz : K) :
    ComputeTransformationFromPose s c
      ⟨[6], Dtype.Float32, dev, idX, [0, 0, 0, tx, ty, tz]⟩ fresh
    = Except.ok ⟨[4, 4], Dtype.Float32, dev, fresh,
        [1, 0, 0, tx, 0, 1, 0, ty, 0, 0, 1, tz, 0, 0, 0, 1]⟩ := by
  simp [ComputeTransformationFromPose, Tensor.zeros, hs, hc]

/-- Witness for C6 at a concrete instance: `K = ℤ`, the constant sine `0`
and cosine `1`, translation `[2, 3, 5]`. -/
theorem Open3D.C6_fromPose_zero_angles_witness :
    ComputeTransformationFromPose (K := ℤ) (fun _ => 0) (fun _ => 1)
      ⟨[6], Dtype.Float32, hostDevice, 0, [0, 0, 0, 2, 3, 5]⟩ 7
    = Except.ok ⟨[4, 4], Dtype.Float32, hostDevice, 7,
        [1, 0, 0, 2, 0, 1, 0, 3, 0, 0, 1, 5, 0, 0, 0, 1]⟩ := by
  exact Open3D.C6_fromPose_zero_angles (fun _ => 0) (fun _ => 1) (by norm_num)
    (by norm_num) hostDevice 0 7 2 3 5

/-- C7: the backend registry always has an entry for the CPU category
(so `Solve` on valid CPU-resident tensors never fails with
`unimplementedBackend`), and for valid inputs `Solve` fails with
`unimplementedBackend` exactly when A's device category has no registry
entry. The registry itself is a fixed pure function of the build flag —
it admits no modification after construction in this model. -/
theorem Open3D.C7_registry_cpu_and_unimplemented {K : Type} [CommRing K]
    (bc : Bool) (cpuB cudaB : GesvBackend K) :
    map_device_type_to_gesv bc cpuB cudaB DeviceType.CPU = some cpuB
  ∧ (∀ (A B : Tensor K) (fresh : Nat), solveValidate A B = none →
      A.device.type = DeviceType.CPU →
      Solve bc cpuB cudaB A B fresh ≠ Except.error SolveError.unimplementedBackend)
  ∧ (∀ (A B : Tensor K) (fresh : Nat), solveValidate A B = none →
      (Solve bc cpuB cudaB A B fresh = Except.error SolveError.unimplementedBackend
        ↔ map_device_type_to_gesv bc cpuB cudaB A.device.type = none)) := by
  refine ⟨rfl, ?_, ?_⟩
  · intro A B fresh hv hcpu h
    rw [Solve_eq_ok bc cpuB cudaB A B fresh cpuB hv (by rw [hcpu]; rfl)] at h
    exact Except.noConfusion h
  · intro A B fresh hv
    cases hl : map_device_type_to_gesv bc cpuB cudaB A.device.type with
    | none => simp [Solve, hv, hl]
    | some g =>
      rw [Solve_eq_ok bc cpuB cudaB A B fresh g hv hl]
      simp [hl]

/-- Witness for C7: a valid CPU-resident solve does not report
`unimplementedBackend`. -/
theorem Open3D.C7_registry_witness :
    Solve false idGesv idGesv cexA okB 5 ≠
      Except.error SolveError.unimplementedBackend :=
  (Open3D.C7_registry_cpu_and_unimplemented false idGesv idGesv).2.1 cexA okB 5
    (by decide) rfl

/-- C8: `ComputeTransformationFromPose` fails (with a fatal error, so no
transform value is produced) if and only if X's shape is not exactly `[6]`
or X's dtype is not Float32. -/
theorem Open3D.C8_fromPose_failure_iff {K : Type} [CommRing K] (s c : K → K)
    (X : Tensor K) (fresh : Nat) :
    (∃ e, ComputeTransformationFromPose s c X fresh = Except.error e)
    ↔ (X.shape ≠ [6] ∨ X.dtype ≠ Dtype.Float32) := by
  by_cases h1 : X.shape = [6] <;> by_cases h2 : X.dtype = Dtype.Float32 <;>
    simp [ComputeTransformationFromPose, h1, h2]

/-- C9: for valid inputs, the pivot buffer handed to the backend is an
`Int32` vector of length `n = A.shape[0]`, zero-initialized, resident on
the host device `CPU:0` and freshly allocated — irrespective of A's and
B's device and of which backend performs the solve. -/
theorem Open3D.C9_ipiv_on_host {K : Type} [CommRing K]
    (bc : Bool) (cpuB cudaB g : GesvBackend K) (A B : Tensor K) (fresh : Nat)
    (hv : solveValidate A B = none)
    (hg : map_device_type_to_gesv bc cpuB cudaB A.device.type = some g) :
    ∃ out, Solve bc cpuB cudaB A B fresh = Except.ok out
      ∧ out.ipiv.shape = [A.shape.getD 0 0]
      ∧ out.ipiv.dtype = Dtype.Int32
      ∧ out.ipiv.device = hostDevice
      ∧ out.ipiv.data = List.replicate (A.shape.getD 0 0) 0
      ∧ out.ipiv.bufferId = fresh + 2 := by
  refine ⟨solveOutcome g A B fresh, Solve_eq_ok bc cpuB cudaB A B fresh g hv hg,
    ?_, ?_, ?_, ?_, ?_⟩ <;> simp [solveOutcome, Tensor.zeros]

/-- Witness for C9 on CUDA-resident tensors with the CUDA backend compiled
in: the pivot buffer still lives on `CPU:0`. -/
theorem Open3D.C9_ipiv_witness :
    ∃ out, Solve true idGesv idGesv cudaA cudaB 3 = Except.ok out
      ∧ out.ipiv.shape = [cudaA.shape.getD 0 0]
      ∧ out.ipiv.dtype = Dtype.Int32
      ∧ out.ipiv.device = hostDevice
      ∧ out.ipiv.data = List.replicate (cudaA.shape.getD 0 0) 0
      ∧ out.ipiv.bufferId = 3 + 2 :=
  Open3D.C9_ipiv_on_host true idGesv idGesv idGesv cudaA cudaB 3 (by decide) rfl

/-- C10: when several preconditions are violated at once, the reported
error is determined by the source's fixed check order — device equality,
dtype equality, dtype support, A's rank, A's squareness, B's rank, then
the A-columns/B-rows match. Each conjunct assumes the earlier checks pass
and its own check fails, and concludes which error `Solve` reports. -/
theorem Open3D.C10_fixed_check_order {K : Type} [CommRing K] (bc : Bool)
    (cpuB cudaB : GesvBackend K) (A B : Tensor K) (fresh : Nat) :
    (A.device ≠ B.device →
      Solve bc cpuB cudaB A B fresh = Except.error SolveError.deviceMismatch)
  ∧ (A.device = B.device → A.dtype ≠ B.dtype →
      Solve bc cpuB cudaB A B fresh = Except.error SolveError.dtypeMismatch)
  ∧ (A.device = B.device → A.dtype = B.dtype → A.dtype ≠ Dtype.Float32 →
      A.dtype ≠ Dtype.Float64 →
      Solve bc cpuB cudaB A B fresh = Except.error SolveError.unsupportedDtype)
  ∧ (A.device = B.device → A.dtype = B.dtype →
      (A.dtype = Dtype.Float32 ∨ A.dtype = Dtype.Float64) →
      A.shape.length ≠ 2 →
      Solve bc cpuB cudaB A B fresh = Except.error SolveError.shapeError)
  ∧ (A.device = B.device → A.dtype = B.dtype →
      (A.dtype = Dtype.Float32 ∨ A.dtype = Dtype.Float64) →
      A.shape.length = 2 → A.shape.getD 0 0 ≠ A.shape.getD 1 0 →
      Solve bc cpuB cudaB A B fresh = Except.error SolveError.shapeError)
  ∧ (A.device = B.device → A.dtype = B.dtype →
      (A.dtype = Dtype.Float32 ∨ A.dtype = Dtype.Float64) →
      A.shape.length = 2 → A.shape.getD 0 0 = A.shape.getD 1 0 →
      B.shape.length ≠ 1 → B.shape.length ≠ 2 →
      Solve bc cpuB cudaB A B fresh = Except.error SolveError.shapeError)
  ∧ (A.device = B.device → A.dtype = B.dtype →
      (A.dtype = Dtype.Float32 ∨ A.dtype = Dtype.Float64) →
      A.shape.length = 2 → A.shape.getD 0 0 = A.shape.getD 1 0 →
      (B.shape.length = 1 ∨ B.shape.length = 2) →
      A.shape.getD 1 0 ≠ B.shape.getD 0 0 →
      Solve bc cpuB cudaB A B fresh = Except.error SolveError.dimensionMismatch) := by
  refine ⟨fun h1 => ?_, fun h1 h2 => ?_, fun h1 h2 h3 h4 => ?_,
    fun h1 h2 h3 h4 => ?_, fun h1 h2 h3 h4 h5 => ?_,
    fun h1 h2 h3 h4 h5 h6 h7 => ?_, fun h1 h2 h3 h4 h5 h6 h7 => ?_⟩
  · simp [Solve, solveValidate, h1]
  · simp [Solve, solveValidate, h1, h2]
  · simp_all [Solve, solveValidate]
  · rcases h3 with h3 | h3 <;> simp_all [Solve, solveValidate]
  · rcases h3 with h3 | h3 <;> simp_all [Solve, solveValidate]
  · rcases h3 with h3 | h3 <;> simp_all [Solve, solveValidate]
  · rcases h3 with h3 | h3 <;> rcases h6 with h6 | h6 <;>
      simp_all [Solve, solveValidate]

/-- Witness for C10: on `cexA`, `cexB` (which differ in both device and
dtype) the reported failure is `deviceMismatch`, not `dtypeMismatch`. -/
theorem Open3D.C10_fixed_check_order_witness :
    Solve false idGesv idGesv cexA cexB 5 =
      Except.error SolveError.deviceMismatch :=
  (Open3D.C10_fixed_check_order false idGesv idGesv cexA cexB 5).1 (by decide)
